import Mathlib

/-!
# Verification of the MCP agent runtime

Shallow embedding of the conversational-agent runtime: the LangGraph
orchestration loop (`src/agents/agent-http/src/graph/nodes.py`,
`workflow.py`, mirrored in `src/agent/src/graph/`), the MCP HTTP tool
client (`src/agent/src/mcp_client/client.py`), the LLM gateway endpoint
(`src/llm-gateway/src/server.py`), and the toolbox server
(`src/toolbox/src/server.py` with `src/toolbox/src/tools/`).

Network transports, the JSON library, wall-clock timestamps and the
backing model are external effects; they enter the embedding as explicit
function parameters, so every definition stays executable. Python
exceptions are encoded as `Except`/`Option` failure values.
-/

namespace MCPAgent

/-- Tool arguments: the JSON object produced by `json.loads` on the
`ARGUMENTS:` line and forwarded verbatim to the tool client. The
orchestration code never inspects it, so it is kept as ordered key/value
string pairs. -/
abbrev Args := List (String × String)

/-- LangChain message roles used by the graph nodes. -/
inductive Role
  | user
  | assistant
  | tool
  | system
deriving DecidableEq, Repr

/-- One tool request attached to an assistant message
(`response.additional_kwargs["tool_calls"]` entries: name, args, id). -/
structure ToolCall where
  name : String
  args : Args
  id : String
deriving DecidableEq, Repr

/-- A LangChain message as the nodes use it: role, content, the optional
tool-call list of assistant messages, and the correlation fields of tool
messages. -/
structure Message where
  role : Role
  content : String
  tool_calls : List ToolCall := []
  tool_call_id : Option String := none
  tool_name : Option String := none
deriving DecidableEq, Repr

/-- `HumanMessage(content=...)`. -/
def HumanMessage (content : String) : Message :=
  { role := .user, content := content }

/-- `SystemMessage(content=...)`. -/
def SystemMessage (content : String) : Message :=
  { role := .system, content := content }

/-- `AIMessage(content=...)` carrying parsed tool calls. -/
def AIMessage (content : String) (tool_calls : List ToolCall := []) : Message :=
  { role := .assistant, content := content, tool_calls := tool_calls }

/-- `ToolMessage(content=..., tool_call_id=..., name=...)`. -/
def ToolMessage (content : String) (tool_call_id : String) (name : String) : Message :=
  { role := .tool, content := content, tool_call_id := some tool_call_id,
    tool_name := some name }

/-- One entry of the `executed_tools` summary a tool-execution step records. -/
structure ExecutedTool where
  name : String
  args : Args
  result : String
deriving DecidableEq, Repr

/-- A value stored under one key of a step-record dict. -/
inductive StepValue
  | str (s : String)
  | bool (b : Bool)
  | num (q : ℚ)
  | tools (ts : List ExecutedTool)
deriving DecidableEq, Repr

/-- A step record: the dict appended to `state["steps"]` by each node. -/
abbrev StepRecord := List (String × StepValue)

/-- The partial state a node returns: messages to merge into history plus
the full step list (`{"messages": ..., "steps": ...}`). -/
structure NodeDelta where
  messages : List Message := []
  steps : List StepRecord
deriving DecidableEq, Repr

/-- The LangGraph `add_messages` reducer: messages returned by a node are
appended to the history already in the state. -/
def applyMessages (history delta : List Message) : List Message :=
  history ++ delta

/-! ## Python string primitives

Lean's built-in `String.trim`, `replace`, `splitOn`, `startsWith`, `map`
and `split` run on byte iterators that the kernel cannot reduce, so the
Python string operations the nodes use are re-implemented here by
structural recursion over character lists. -/

/-- Python regex `\w` over the ASCII inputs in play. -/
def isWordChar (c : Char) : Bool :=
  c.isAlphanum || c = '_'

/-- Python regex `\s` and the default `str.strip`/`str.split` whitespace,
restricted to the ASCII class. -/
def isPySpace (c : Char) : Bool :=
  c = ' ' || c = '\t' || c = '\n' || c = '\r' || c = '\x0b' || c = '\x0c'

/-- Consume a literal at the head of the input, returning the rest. -/
def dropLit : List Char → List Char → Option (List Char)
  | [], cs => some cs
  | _ :: _, [] => none
  | p :: ps, c :: cs => if p = c then dropLit ps cs else none

/-- Python `s.startswith(pat)`. -/
def pyStarts (s pat : String) : Bool :=
  (dropLit pat.toList s.toList).isSome

/-- Does `pat` occur anywhere in the character list? -/
def containsChars (pat : List Char) : List Char → Bool
  | [] => (dropLit pat []).isSome
  | c :: cs => (dropLit pat (c :: cs)).isSome || containsChars pat cs

/-- Python's substring test `pat in s`. -/
def containsSub (s pat : String) : Bool :=
  containsChars pat.toList s.toList

/-- Python `s.strip()` over the ASCII whitespace class. -/
def pyStrip (s : String) : String :=
  (((s.toList.dropWhile isPySpace).reverse.dropWhile isPySpace).reverse).asString

/-- Left-to-right non-overlapping replacement, fuelled by the input
length so the recursion stays structural; `fuel ≥ cs.length` always holds
at the call sites. Only ever called with a nonempty pattern. -/
def replaceAux (pat repl : List Char) : Nat → List Char → List Char
  | 0, cs => cs
  | _ + 1, [] => []
  | fuel + 1, c :: cs =>
    match pat with
    | [] => c :: cs
    | p :: ps =>
      if p = c then
        match dropLit ps cs with
        | some rest => repl ++ replaceAux pat repl fuel rest
        | none => c :: replaceAux pat repl fuel cs
      else c :: replaceAux pat repl fuel cs

/-- Python `s.replace(pat, repl)` (all occurrences, left to right). -/
def pyReplace (s pat repl : String) : String :=
  (replaceAux pat.toList repl.toList s.toList.length s.toList).asString

/-- Splitting on a literal separator, fuelled like `replaceAux`; `acc`
holds the current piece reversed. Only ever called with a nonempty
pattern. -/
def splitOnAux (pat : List Char) : Nat → List Char → List Char → List (List Char)
  | 0, acc, cs => [acc.reverse ++ cs]
  | _ + 1, acc, [] => [acc.reverse]
  | fuel + 1, acc, c :: cs =>
    match pat with
    | [] => [acc.reverse ++ (c :: cs)]
    | p :: ps =>
      if p = c then
        match dropLit ps cs with
        | some rest => acc.reverse :: splitOnAux pat fuel [] rest
        | none => splitOnAux pat fuel (c :: acc) cs
      else splitOnAux pat fuel (c :: acc) cs

/-- Python `s.split(pat)` for a nonempty literal separator. -/
def pySplit (s pat : String) : List String :=
  (splitOnAux pat.toList s.toList.length [] s.toList).map List.asString

/-- The maximal nonempty runs of non-whitespace characters. -/
def wordChunks : List Char → List Char → List (List Char)
  | [], acc => if acc.isEmpty then [] else [acc.reverse]
  | c :: cs, acc =>
    if isPySpace c then
      if acc.isEmpty then wordChunks cs [] else acc.reverse :: wordChunks cs []
    else
      wordChunks cs (c :: acc)

/-- Python `s.split()`: split on whitespace runs, dropping empty pieces. -/
def pySplitWs (s : String) : List String :=
  (wordChunks s.toList []).map List.asString

/-- `tool_execution_node` (`nodes.py`): reads the last message; when it
carries no tool calls, returns only the step list; otherwise invokes the
tool client once per requested call, turning a successful result into a
`ToolMessage` with that result and a raised exception into a `ToolMessage`
whose content is `"Error: "` plus the exception text, in request order.
`callTool` is the bound `mcp_client.call_tool`, `.error` standing for a
raised exception. `none` models the `IndexError` of `messages[-1]` on an
empty history. -/
def tool_execution_node (callTool : String → Args → Except String String)
    (messages : List Message) (steps : List StepRecord) (now : String) :
    Option NodeDelta :=
  match messages.getLast? with
  | none => none
  | some last_message =>
    if last_message.tool_calls.isEmpty then
      some { steps := steps }
    else
      let tool_messages := last_message.tool_calls.map fun tc =>
        match callTool tc.name tc.args with
        | .ok r => ToolMessage r tc.id tc.name
        | .error e => ToolMessage ("Error: " ++ e) tc.id tc.name
      let executed_tools := last_message.tool_calls.filterMap fun tc =>
        match callTool tc.name tc.args with
        | .ok r => some { name := tc.name, args := tc.args, result := r }
        | .error _ => none
      some { messages := tool_messages,
             steps := steps ++
               [[("node", .str "tool_execution"), ("timestamp", .str now),
                 ("tools", .tools executed_tools)]] }

/-- The line loop of `llm_node`'s tool-call parser: scan the lines of the
reply, remembering the name from the latest `TOOL_CALL:` line and the
arguments from the latest `ARGUMENTS:` line. `jsonLoads` is the external
`json.loads`; its failure (`none`) is the raised exception that aborts the
whole parse, yielding `none`. -/
def parseToolLines (jsonLoads : String → Option Args) :
    List String → Option String → Args → Option (Option String × Args)
  | [], tool_name, tool_args => some (tool_name, tool_args)
  | line :: rest, tool_name, tool_args =>
    if pyStarts line "TOOL_CALL:" then
      parseToolLines jsonLoads rest (some (pyStrip (pyReplace line "TOOL_CALL:" ""))) tool_args
    else if pyStarts line "ARGUMENTS:" then
      match jsonLoads (pyStrip (pyReplace line "ARGUMENTS:" "")) with
      | none => none
      | some a => parseToolLines jsonLoads rest tool_name a
    else
      parseToolLines jsonLoads rest tool_name tool_args

/-- The tool-call extraction of `llm_node` (`nodes.py`): when the reply
text contains the `TOOL_CALL:` marker, parse its lines; a parse exception
or a missing / empty tool name attaches nothing, otherwise one tool call
(with the freshly generated `call_id`) is attached to the reply. -/
def extractToolCalls (jsonLoads : String → Option Args) (response_text : String)
    (call_id : String) : List ToolCall :=
  if containsSub response_text "TOOL_CALL:" then
    match parseToolLines jsonLoads (pySplit (pyStrip response_text) "\n") none [] with
    | none => []
    | some (tool_name?, tool_args) =>
      match tool_name? with
      | some tool_name => if tool_name ≠ "" then [⟨tool_name, tool_args, call_id⟩] else []
      | none => []
  else []

/-- The assistant message `llm_node` appends to history: the gateway
reply's content, carrying whatever tool calls the parser extracted. -/
def llm_response_message (jsonLoads : String → Option Args)
    (response_content call_id : String) : Message :=
  AIMessage response_content (extractToolCalls jsonLoads response_content call_id)

/-- `route_decision` (`nodes.py`): inspect `messages[-1]`; tool calls
present routes to `"tools"`, otherwise `"final"`. `none` models the
`IndexError` on an empty history. -/
def route_decision (messages : List Message) : Option String :=
  messages.getLast?.map fun last_message =>
    if !last_message.tool_calls.isEmpty then "tools" else "final"

/-- `final_answer_node` (`nodes.py`): the final answer is the content of
the last message when it is an `AIMessage`, else its `str()` form
(`render` stands for Python's `str` on a message object); one step record
is appended. -/
def final_answer_node (render : Message → String) (messages : List Message)
    (steps : List StepRecord) (now : String) : Option (String × List StepRecord) :=
  messages.getLast?.map fun last_message =>
    ((if last_message.role = .assistant then last_message.content else render last_message),
     steps ++ [[("node", StepValue.str "final_answer"), ("timestamp", .str now)]])

/-! ## Model detection (`_detect_model_from_text`) -/

/-- Match, anchored at the head of `cs`, the regex tail
`(kw₁|...)\s+(prov₁|...)`: one keyword alternative, at least one
whitespace char, then one provider alternative. The keyword alternatives
used in the source are pairwise prefix-free, so ordered alternation is
plain existence. -/
def matchKwProvAt (kws provs : List (List Char)) (cs : List Char) : Bool :=
  kws.any fun kw =>
    match dropLit kw cs with
    | none => false
    | some rest =>
      let rest1 := rest.dropWhile isPySpace
      decide (rest1.length < rest.length) &&
        provs.any fun p => (dropLit p rest1).isSome

/-- `re.search` of `\b(kw...)\s+(prov...)`: some position preceded by a
non-word char (or the start) matches. `prev` carries the char before the
current position. -/
def searchKwProv (kws provs : List (List Char)) : Option Char → List Char → Bool
  | _, [] => false
  | prev, c :: rest =>
    ((match prev with | none => true | some p => !isWordChar p) &&
        matchKwProvAt kws provs (c :: rest)) ||
      searchKwProv kws provs (some c) rest

/-- The keyword group `(usa|use|utiliza|con)` shared by all three patterns. -/
def modelKeywords : List (List Char) :=
  ["usa", "use", "utiliza", "con"].map String.toList

/-- `_detect_model_from_text` (`nodes.py`): lowercase the text and try the
three provider patterns in order, returning the registry name of the
first that matches. -/
def detect_model_from_text (text : String) : Option String :=
  let text_lower := text.toList.map Char.toLower
  if searchKwProv modelKeywords (["openai", "gpt", "gpt-4", "gpt4"].map String.toList)
      none text_lower then
    some "gpt-4o"
  else if searchKwProv modelKeywords (["gemini", "google"].map String.toList)
      none text_lower then
    some "gemini-pro"
  else if searchKwProv modelKeywords (["bedrock", "nova", "aws"].map String.toList)
      none text_lower then
    some "bedrock-nova-pro"
  else
    none

/-- Python truthiness of the optional model string (`None` and `""` are
falsy). -/
def truthyStr : Option String → Bool
  | none => false
  | some s => !s.isEmpty

/-- What `process_input_node` returns: the fresh history, the step list,
and the `"model"` key of the returned dict (`none` when the key is
absent). -/
structure ProcessInputOut where
  messages : List Message
  steps : List StepRecord
  model : Option String
deriving DecidableEq, Repr

/-- `process_input_node` (`nodes.py`, agent-http): detect a model from the
text only when the state carries none, wrap the input as the first user
message, and record a step (tagging `model_selected` when a model is
known). The `"model"` key is set in the result only when the model is
truthy. -/
def process_input_node (user_input : String) (state_model : Option String)
    (steps : List StepRecord) (now : String) : ProcessInputOut :=
  let current_model :=
    if truthyStr state_model then state_model
    else
      match detect_model_from_text user_input with
      | some detected => some detected
      | none => state_model
  let step_info : StepRecord :=
    [("node", .str "process_input"), ("timestamp", .str now),
      ("input", .str user_input)] ++
    (if truthyStr current_model then
      [("model_selected", StepValue.str (current_model.getD ""))]
    else [])
  { messages := [HumanMessage user_input],
    steps := steps ++ [step_info],
    model := if truthyStr current_model then current_model else none }

/-- LangGraph merge of the `"model"` key: a key present in the returned
dict overwrites the state, an absent key leaves it. -/
def model_after_process_input (state_model : Option String)
    (out : ProcessInputOut) : Option String :=
  match out.model with
  | some m => some m
  | none => state_model

/-! ## The compiled workflow (`workflow.py`) -/

/-- One discovered tool as `llm_node` renders it into the system message.
`rendered_props` holds `json.dumps` of the schema's properties, `none`
when the tool has no `input_schema` or it has no properties (the JSON
renderer itself is external). -/
structure ToolDescr where
  name : String
  description : String
  rendered_props : Option String
deriving DecidableEq, Repr

/-- One `"- name: description"` line of the system message, with the
optional parameters line. -/
def toolLine (t : ToolDescr) : String :=
  "- " ++ t.name ++ ": " ++ t.description ++
    (match t.rendered_props with
     | some ps => "\n  Parameters: " ++ ps
     | none => "")

/-- The system prompt `llm_node` builds: the tool list plus the
`TOOL_CALL:`/`ARGUMENTS:` protocol instructions. -/
def system_prompt (tools : List ToolDescr) : String :=
  "You are a helpful AI assistant with access to the following tools:\n\n" ++
    String.intercalate "\n" (tools.map toolLine) ++
    "\n\nWhen you need to use a tool, respond with a tool call in this exact format:\nTOOL_CALL: tool_name\nARGUMENTS: \x7b\"arg1\": \"value1\", \"arg2\": \"value2\"\x7d\n\nIf you don't need any tools, just respond normally to help the user."

/-- `llm_node` (`nodes.py`, agent-http): prepend the system message, call
the gateway (`gen`, the external `llm_client.generate` returning the
reply's content), parse tool calls out of the reply, and append the
assistant message plus one step record. `model_used`, `cached` and
`latency_ms` mirror the response metadata recorded into the step. -/
def llm_node (gen : List Message → String) (jsonLoads : String → Option Args)
    (tools : List ToolDescr) (model_used : String) (cached : Bool) (latency_ms : ℚ)
    (call_id now : String) (messages : List Message) (steps : List StepRecord) :
    NodeDelta :=
  let llm_messages := SystemMessage (system_prompt tools) :: messages
  let response := llm_response_message jsonLoads (gen llm_messages) call_id
  { messages := [response],
    steps := steps ++
      [[("node", .str "llm"), ("timestamp", .str now), ("model", .str model_used),
        ("cached", .bool cached), ("latency_ms", .num latency_ms),
        ("has_tool_calls", .bool (!response.tool_calls.isEmpty))]] }

/-- The graph nodes of `create_workflow` plus the terminal `END`. -/
inductive GNode
  | process_input
  | llm
  | tool_execution
  | final_answer
  | done
deriving DecidableEq, Repr

/-- The `AgentState` of a turn (`state.py`) together with the node about
to run. -/
structure TurnState where
  node : GNode
  user_input : String
  model : Option String
  messages : List Message
  steps : List StepRecord
  final_answer : Option String
deriving DecidableEq, Repr

/-- The external collaborators and per-call metadata a turn runs against. -/
structure WorkflowEnv where
  gen : List Message → String
  jsonLoads : String → Option Args
  callTool : String → Args → Except String String
  render : Message → String
  tools : List ToolDescr
  model_used : String
  cached : Bool
  latency_ms : ℚ
  call_id : String
  now : String

/-- One transition of the compiled graph (`create_workflow`,
`workflow.py`): run the node the state points at, merge its delta, and
follow the (conditional) edge. There is no edge out of `END` and no
round counter anywhere. -/
def workflowStep (env : WorkflowEnv) (s : TurnState) : Option TurnState :=
  match s.node with
  | .process_input =>
    let out := process_input_node s.user_input s.model s.steps env.now
    some { s with node := .llm,
                  messages := applyMessages s.messages out.messages,
                  steps := out.steps,
                  model := model_after_process_input s.model out }
  | .llm =>
    let d := llm_node env.gen env.jsonLoads env.tools env.model_used env.cached
      env.latency_ms env.call_id env.now s.messages s.steps
    let messages' := applyMessages s.messages d.messages
    match route_decision messages' with
    | some r =>
      if r = "tools" then
        some { s with node := .tool_execution, messages := messages', steps := d.steps }
      else if r = "final" then
        some { s with node := .final_answer, messages := messages', steps := d.steps }
      else none
    | none => none
  | .tool_execution =>
    match tool_execution_node env.callTool s.messages s.steps env.now with
    | none => none
    | some d =>
      some { s with node := .llm,
                    messages := applyMessages s.messages d.messages,
                    steps := d.steps }
  | .final_answer =>
    match final_answer_node env.render s.messages s.steps env.now with
    | none => none
    | some (answer, steps') =>
      some { s with node := .done, final_answer := some answer, steps := steps' }
  | .done => none

/-- Run `n` transitions of the workflow. -/
def runWorkflow (env : WorkflowEnv) : Nat → TurnState → Option TurnState
  | 0, s => some s
  | n + 1, s =>
    match workflowStep env s with
    | none => none
    | some s' => runWorkflow env n s'

/-- The state a turn starts from (`START → process_input`). -/
def initTurnState (user_input : String) (model : Option String) : TurnState :=
  { node := .process_input, user_input := user_input, model := model,
    messages := [], steps := [], final_answer := none }

/-- Every key any node ever writes into a step record. -/
def stepKeys : List String :=
  ["node", "timestamp", "input", "model_selected", "model", "cached",
    "latency_ms", "has_tool_calls", "tools"]

/-- All step-record keys of a state are drawn from `stepKeys`. -/
def stepsKeysOk (steps : List StepRecord) : Prop :=
  ∀ rec ∈ steps, ∀ kv ∈ rec, kv.1 ∈ stepKeys

end MCPAgent

namespace MCPHttp

/-! ## The MCP HTTP tool client (`src/agent/src/mcp_client/client.py`) -/

/-- One discovered tool as stored in `self.tools` by `discover_tools`. -/
structure ToolInfo where
  description : String
  input_schema : List (String × String)
deriving DecidableEq, Repr

/-- The discovered name → definition map (a Python dict, insertion
ordered). -/
abbrev ToolMap := List (String × ToolInfo)

/-- One item of the MCP call response's `content` list; `text?` is its
optional `"text"` field (`content[0].get("text", "")`). -/
structure ContentItem where
  text? : Option String
deriving DecidableEq, Repr

/-- Outcome of the HTTP POST to `/mcp/tools/call` as seen by the client:
a parsed JSON body, a non-2xx status (what `raise_for_status` raises), or
a transport failure. -/
inductive HttpResult
  | ok (content : List ContentItem)
  | statusError (code : Nat) (body : String)
  | netError (msg : String)
deriving DecidableEq, Repr

/-- A Python exception escaping `call_tool`: the `ValueError` it raises
itself, or the re-raised `httpx` errors. -/
inductive PyExc
  | valueError (msg : String)
  | httpStatusError (code : Nat) (body : String)
  | httpError (msg : String)
deriving DecidableEq, Repr

/-- Python's `str(e)` on the exceptions above. For the `httpx` errors the
library's rendering is abstracted to the carried message. -/
def PyExc.toStr : PyExc → String
  | .valueError m => m
  | .httpStatusError _ body => body
  | .httpError m => m

/-- `repr` of the Python list of available tool names, as interpolated
into the `ValueError` message. -/
def availableRepr (names : List String) : String :=
  "[" ++ String.intercalate ", " (names.map fun n => "'" ++ n ++ "'") ++ "]"

/-- The message of the `ValueError` raised for an unknown tool name. -/
def toolNotFoundMsg (tool_name : String) (tools : ToolMap) : String :=
  "Tool '" ++ tool_name ++ "' not found. Available tools: " ++
    availableRepr (tools.map Prod.fst)

/-- `MCPClient.call_tool`: an unknown name raises `ValueError` before any
network traffic; otherwise the POST runs, its errors are re-raised, and
an empty `content` list yields `None` while a first item yields its text.
`post` is the external transport; `.error` is a raised exception. -/
def call_tool (post : String → MCPAgent.Args → HttpResult) (tools : ToolMap)
    (tool_name : String) (arguments : MCPAgent.Args) :
    Except PyExc (Option String) :=
  if (tools.lookup tool_name).isNone then
    .error (.valueError (toolNotFoundMsg tool_name tools))
  else
    match post tool_name arguments with
    | .statusError code body => .error (.httpStatusError code body)
    | .netError msg => .error (.httpError msg)
    | .ok content =>
      match content with
      | [] => .ok none
      | item :: _ => .ok (some (item.text?.getD ""))

/-- Python `str(result)` applied by `tool_execution_node` to the value
`call_tool` returns (`None` prints as `"None"`). -/
def pyStrOfOpt : Option String → String
  | none => "None"
  | some s => s

/-- The bound tool client as `tool_execution_node` consumes it: a raised
exception surfaces as `.error` carrying `str(e)`. -/
def clientCallTool (post : String → MCPAgent.Args → HttpResult) (tools : ToolMap) :
    String → MCPAgent.Args → Except String String :=
  fun tool_name arguments =>
    match call_tool post tools tool_name arguments with
    | .ok r => .ok (pyStrOfOpt r)
    | .error e => .error e.toStr

end MCPHttp

namespace Gateway

/-! ## The LLM gateway (`src/llm-gateway/src/server.py`)

`server.py` imports `cache_manager`, `metrics_manager` and `get_llm`
from `cache.py`, `metrics.py` and `registry.py`, none of which are under
`src/`; those three collaborators are modelled from the spec below, and
everything else follows `generate_response` in `server.py`. -/

/-- One normalized chat message of a generation request. -/
structure GwMessage where
  role : String
  content : String
deriving DecidableEq, Repr

/-- Token usage of a provider response. -/
structure Usage where
  input_tokens : Nat
  output_tokens : Nat
  total_tokens : Nat
deriving DecidableEq, Repr

/-- The `response_data` dict an adapter returns (`models/openai.py` and
siblings): exactly content, usage, finish reason and model — no latency
and no cost. -/
structure ResponseData where
  content : String
  usage : Usage
  finish_reason : String
  model : String
deriving DecidableEq, Repr

/-- A generation request (`GenerateRequest` in `server.py`); temperature
is modelled in ℚ. -/
structure GenerateRequest where
  model : String
  messages : List GwMessage
  temperature : ℚ
  max_tokens : Nat
deriving DecidableEq, Repr

/-- The response body (`GenerateResponse` in `server.py`). -/
structure GenerateResponse where
  content : String
  model : String
  usage : Usage
  finish_reason : String
  cached : Bool
  latency_ms : ℚ
  estimated_cost_usd : ℚ
deriving DecidableEq, Repr

/-- The fields the cache key is derived from. Modelled from the spec:
entries are "keyed by a deterministic hash of `(model_id, messages,
temperature, max_tokens)`"; the key is taken to be the quadruple itself,
a deterministic, collision-free hash. -/
structure CacheKey where
  model : String
  messages : List GwMessage
  temperature : ℚ
  max_tokens : Nat
deriving DecidableEq, Repr

/-- The cache key of a request. -/
def reqKey (req : GenerateRequest) : CacheKey :=
  ⟨req.model, req.messages, req.temperature, req.max_tokens⟩

/-- One stored cache entry: key, value, insertion time. -/
structure CacheEntry where
  key : CacheKey
  response : ResponseData
  inserted_at : ℚ
deriving DecidableEq, Repr

/-- The response cache, most recent entry first. -/
abbrev Cache := List CacheEntry

/-- Modelled from the spec: `cache_manager.get` of the missing `cache.py`
— a lookup that answers only entries younger than the TTL ("entries older
than TTL are never returned as hits; a request issued exactly at or after
expiry is treated as a miss"). -/
def cacheGet (ttl : ℚ) (c : Cache) (key : CacheKey) (now : ℚ) : Option ResponseData :=
  match c.find? (fun e => decide (e.key = key)) with
  | none => none
  | some e => if now < e.inserted_at + ttl then some e.response else none

/-- Modelled from the spec: `cache_manager.set` of the missing `cache.py`
— write-through per key ("two requests with identical keys observe the
same cached value") with the bounded-size oldest-first eviction the spec
requires. -/
def cacheSet (maxSize : Nat) (c : Cache) (key : CacheKey) (response : ResponseData)
    (now : ℚ) : Cache :=
  (({ key := key, response := response, inserted_at := now } : CacheEntry) ::
    c.filter (fun e => decide (e.key ≠ key))).take maxSize

/-- One metrics observation. Modelled from the spec: the
`metrics_manager` of the missing `metrics.py` keeps process-wide counters
per model (calls, cache hits, errors, tokens, cost, latency); an
append-only journal of the recorded observations carries the same
information. -/
structure MetricRecord where
  model : String
  tokens : Nat
  cost : ℚ
  latency : ℚ
  cached : Bool
  error : Bool
deriving DecidableEq, Repr

/-- Modelled from the spec: `metrics_manager.record` appends one
observation. -/
def metricsRecord (ms : List MetricRecord) (r : MetricRecord) : List MetricRecord :=
  ms ++ [r]

/-- A registered model adapter: its identity, the provider call, and the
per-provider cost estimator (`models/openai.py` and siblings). `generate`
is the external provider call; `.error` is a raised exception. -/
structure Adapter where
  name : String
  provider : String
  generate : List GwMessage → ℚ → Nat → Except String ResponseData
  estimate_cost : Nat → Nat → ℚ

/-- Modelled from the spec: `get_llm` of the missing `registry.py` — a
name-keyed lookup of the adapters registered at startup; an unknown model
id raises `ValueError` (spec: "unknown model id is a client error"). -/
def get_llm (registry : String → Option Adapter) (model : String) :
    Except String Adapter :=
  match registry model with
  | some a => .ok a
  | none => .error ("Model '" ++ model ++ "' not found")

/-- Python `round(x, d)` on the ℚ model: round to `d` decimal places.
(Python rounds float ties to even; the difference is confined to exact
ties and decides nothing proved here.) -/
def roundTo (d : Nat) (x : ℚ) : ℚ :=
  ((round (x * 10 ^ d) : ℤ) : ℚ) / 10 ^ d

/-- The gateway's shared mutable state: the response cache and the
metrics journal. -/
structure GatewayState where
  cache : Cache
  metrics : List MetricRecord
deriving DecidableEq, Repr

/-- What one `/mcp/llm/generate` call produces: a response body or an
`HTTPException` with its status and detail. -/
inductive GwResult
  | ok (resp : GenerateResponse)
  | httpError (status : Nat) (detail : String)
deriving DecidableEq, Repr

/-- The tail of `generate_response` after `response_data` is known
(`server.py` lines 220–256): measure latency, resolve the adapter again
for cost estimation, record metrics, build the response; a `ValueError`
from the lookup falls to the 400 handler, which records an error metric.
`cache'` is the cache as already mutated by the branch that got here. -/
def finishResponse (registry : String → Option Adapter) (req : GenerateRequest)
    (st : GatewayState) (cache' : Cache) (response_data : ResponseData)
    (cached : Bool) (t0 t1 : ℚ) : GwResult × GatewayState :=
  let latency_ms := (t1 - t0) * 1000
  match get_llm registry req.model with
  | .error e =>
    let errRec : MetricRecord := ⟨req.model, 0, 0, latency_ms, false, true⟩
    (.httpError 400 e,
      { cache := cache', metrics := metricsRecord st.metrics errRec })
  | .ok llm =>
    let estimated_cost :=
      llm.estimate_cost response_data.usage.input_tokens response_data.usage.output_tokens
    let okRec : MetricRecord :=
      ⟨req.model, response_data.usage.total_tokens, estimated_cost, latency_ms, cached, false⟩
    (.ok { content := response_data.content,
           model := response_data.model,
           usage := response_data.usage,
           finish_reason := response_data.finish_reason,
           cached := cached,
           latency_ms := roundTo 2 latency_ms,
           estimated_cost_usd := roundTo 6 estimated_cost },
      { cache := cache', metrics := metricsRecord st.metrics okRec })

/-- `generate_response` (`server.py`): check the cache; on a hit reuse the
stored `response_data` with `cached := true`; on a miss resolve the
adapter (unknown model → 400 plus an error metric), call the provider
(a raised provider error → 500 plus an error metric, nothing cached), and
cache the successful result; then finish via `finishResponse`. `t0` is
`start_time`, `t1` the time the call completes. -/
def generate_response (registry : String → Option Adapter) (ttl : ℚ) (maxSize : Nat)
    (req : GenerateRequest) (st : GatewayState) (t0 t1 : ℚ) :
    GwResult × GatewayState :=
  match cacheGet ttl st.cache (reqKey req) t0 with
  | some response_data =>
    finishResponse registry req st st.cache response_data true t0 t1
  | none =>
    match get_llm registry req.model with
    | .error e =>
      let errRec : MetricRecord := ⟨req.model, 0, 0, (t1 - t0) * 1000, false, true⟩
      (.httpError 400 e, { st with metrics := metricsRecord st.metrics errRec })
    | .ok llm =>
      match llm.generate req.messages req.temperature req.max_tokens with
      | .error e =>
        let errRec : MetricRecord := ⟨req.model, 0, 0, (t1 - t0) * 1000, false, true⟩
        (.httpError 500 ("Failed to generate response: " ++ e),
          { st with metrics := metricsRecord st.metrics errRec })
      | .ok response_data =>
        finishResponse registry req st
          (cacheSet maxSize st.cache (reqKey req) response_data t1)
          response_data false t0 t1

end Gateway

namespace Toolbox

/-! ## The MCP toolbox server (`src/toolbox/src/server.py`,
`src/toolbox/src/tools/`) -/

/-- A Python value flowing through a tool call: the JSON numbers and
strings the tool schemas declare. Numbers are modelled in ℚ. -/
inductive PyVal
  | num (q : ℚ)
  | str (s : String)
deriving DecidableEq, Repr

/-- Python `str()` of a tool result, applied by the endpoint. The
rendering of numbers abstracts Python's float formatting; no claim
compares it. -/
def pyStr : PyVal → String
  | .num q => toString q.num ++ (if q.den = 1 then "" else "/" ++ toString q.den)
  | .str s => s

/-- The `arguments` object of a tool-call request. -/
abbrev JArgs := List (String × PyVal)

/-- Outcome of `tool.execute(**arguments)`: a result value, a raised
`ValueError`, or any other raised exception (the `TypeError` of a failed
keyword binding included). -/
inductive ExecOutcome
  | ok (v : PyVal)
  | valueError (msg : String)
  | typeError (msg : String)
deriving DecidableEq, Repr

/-- Python's binding of `**arguments` to the signature `(a, b)`: both
required, nothing else accepted, otherwise `TypeError`. -/
def bindAB (arguments : JArgs) : Except String (PyVal × PyVal) :=
  match arguments.lookup "a", arguments.lookup "b" with
  | some a, some b =>
    if (arguments.map Prod.fst).all (fun k => k == "a" || k == "b") then
      .ok (a, b)
    else
      .error "got an unexpected keyword argument"
  | _, _ => .error "missing a required argument"

/-- Python's binding of `**arguments` to the signature `(text)`. -/
def bindText (arguments : JArgs) : Except String PyVal :=
  match arguments.lookup "text" with
  | some t =>
    if (arguments.map Prod.fst).all (fun k => k == "text") then
      .ok t
    else
      .error "got an unexpected keyword argument"
  | none => .error "missing a required argument"

/-- `AddTool.execute`: `a + b` (numbers add, strings concatenate, a mixed
pair raises `TypeError`, as in Python). -/
def execAdd (arguments : JArgs) : ExecOutcome :=
  match bindAB arguments with
  | .error m => .typeError m
  | .ok (.num a, .num b) => .ok (.num (a + b))
  | .ok (.str a, .str b) => .ok (.str (a ++ b))
  | .ok _ => .typeError "unsupported operand type for +"

/-- `SubtractTool.execute`: `a - b`. -/
def execSubtract (arguments : JArgs) : ExecOutcome :=
  match bindAB arguments with
  | .error m => .typeError m
  | .ok (.num a, .num b) => .ok (.num (a - b))
  | .ok _ => .typeError "unsupported operand type for -"

/-- `MultiplyTool.execute`: `a * b` on the numbers the schema declares. -/
def execMultiply (arguments : JArgs) : ExecOutcome :=
  match bindAB arguments with
  | .error m => .typeError m
  | .ok (.num a, .num b) => .ok (.num (a * b))
  | .ok _ => .typeError "unsupported operand type for *"

/-- `DivideTool.execute`: raises `ValueError("Cannot divide by zero")`
when `b == 0`, else returns `a / b`. -/
def execDivide (arguments : JArgs) : ExecOutcome :=
  match bindAB arguments with
  | .error m => .typeError m
  | .ok (.num a, .num b) =>
    if b = 0 then .valueError "Cannot divide by zero" else .ok (.num (a / b))
  | .ok _ => .typeError "unsupported operand type for /"

/-- `UppercaseTool.execute`: `text.upper()` (ASCII). -/
def execUppercase (arguments : JArgs) : ExecOutcome :=
  match bindText arguments with
  | .error m => .typeError m
  | .ok (.str t) => .ok (.str ((t.toList.map Char.toUpper).asString))
  | .ok _ => .typeError "object has no attribute upper"

/-- `LowercaseTool.execute`: `text.lower()` (ASCII). -/
def execLowercase (arguments : JArgs) : ExecOutcome :=
  match bindText arguments with
  | .error m => .typeError m
  | .ok (.str t) => .ok (.str ((t.toList.map Char.toLower).asString))
  | .ok _ => .typeError "object has no attribute lower"

/-- `CountWordsTool.execute`: the number of nonempty chunks of
`text.split()`. -/
def execCountWords (arguments : JArgs) : ExecOutcome :=
  match bindText arguments with
  | .error m => .typeError m
  | .ok (.str t) =>
    .ok (.num (((MCPAgent.pySplitWs t).filter (fun w => !w.isEmpty)).length))
  | .ok _ => .typeError "object has no attribute split"

/-- `TOOL_REGISTRY` (`tools/__init__.py`), in registration order. -/
def TOOL_REGISTRY : List String :=
  ["add", "subtract", "multiply", "divide", "uppercase", "lowercase", "count_words"]

/-- Dispatch to the registered tool's `execute`. -/
def execTool (name : String) (arguments : JArgs) : ExecOutcome :=
  if name = "add" then execAdd arguments
  else if name = "subtract" then execSubtract arguments
  else if name = "multiply" then execMultiply arguments
  else if name = "divide" then execDivide arguments
  else if name = "uppercase" then execUppercase arguments
  else if name = "lowercase" then execLowercase arguments
  else execCountWords arguments

/-- The `ValueError` message `get_tool` raises for an unknown name
(`tools/__init__.py`). -/
def unknownToolMsg (name : String) : String :=
  "Tool '" ++ name ++ "' not found. Available tools: " ++
    String.intercalate ", " TOOL_REGISTRY

/-- The body of the endpoint's `try` block: `get_tool` (raising
`ValueError` for an unknown name) followed by `execute`. -/
def runToolCall (name : String) (arguments : JArgs) : ExecOutcome :=
  if TOOL_REGISTRY.contains name then execTool name arguments
  else .valueError (unknownToolMsg name)

/-- One `{type, text}` item of a successful response body. -/
structure ContentItem where
  type : String
  text : String
deriving DecidableEq, Repr

/-- What `POST /mcp/tools/call` answers: the content body, or the
`HTTPException` of one of the two handlers. -/
inductive ToolboxResult
  | ok (content : List ContentItem)
  | httpError (status : Nat) (detail : String)
deriving DecidableEq, Repr

/-- `call_tool` (`server.py`): a raised `ValueError` — from the registry
lookup or from the tool itself — becomes 404 with the error's message;
any other exception becomes 500 with the `Tool execution failed:`
detail; success wraps `str(result)` into a one-item text content list. -/
def call_tool_endpoint (name : String) (arguments : JArgs) : ToolboxResult :=
  match runToolCall name arguments with
  | .ok v => .ok [⟨"text", pyStr v⟩]
  | .valueError m => .httpError 404 m
  | .typeError m => .httpError 500 ("Tool execution failed: " ++ m)

end Toolbox


/-! # Concrete instances used by witnesses and counterexamples -/

namespace MCPAgent

/-- A tool client that answers `add` and fails on anything else. -/
def c1CallTool : String → Args → Except String String :=
  fun n _ => if n = "add" then .ok "4" else .error "connection refused"

/-- Two tool requests, the second bound to fail. -/
def c1Calls : List ToolCall :=
  [⟨"add", [("a", "2"), ("b", "2")], "call_1"⟩, ⟨"ghost", [], "call_2"⟩]

/-- An assistant message carrying the two requests. -/
def c1Last : Message :=
  AIMessage "TOOL_CALL: add" c1Calls

/-- A history ending in that assistant message. -/
def c1History : List Message :=
  [HumanMessage "2+2 please", c1Last]

/-- A tool client never reached by the no-request frame check. -/
def c9CallTool : String → Args → Except String String :=
  fun _ _ => .ok "unused"

/-- An assistant message with no tool requests. -/
def c9Last : Message :=
  AIMessage "the answer is 4"

/-- A history ending in that request-free assistant message. -/
def c9History : List Message :=
  [HumanMessage "2+2 please", c9Last]

/-- A `json.loads` that rejects every input. -/
def c4JsonLoads : String → Option Args :=
  fun _ => none

/-- A reply that claims a tool call whose arguments do not parse. -/
def c4Text : String :=
  "TOOL_CALL: add\nARGUMENTS: \x7bnot json"

/-- The history before the malformed reply is appended. -/
def c4History : List Message :=
  [HumanMessage "2+2 please"]

/-- Python `str()` on a message, for the finalize fallback branch. -/
def c4Render : Message → String :=
  fun m => m.content

/-- An environment whose model reply always parses to one tool call: the
gateway always answers with a well-formed `TOOL_CALL:` block and the JSON
arguments parse. -/
def c2Env : WorkflowEnv :=
  { gen := fun _ => "TOOL_CALL: add\nARGUMENTS: \x7b\x7d",
    jsonLoads := fun _ => some [],
    callTool := fun _ _ => .ok "4",
    render := fun m => m.content,
    tools := [],
    model_used := "bedrock-nova-pro", cached := false, latency_ms := 0,
    call_id := "call_0", now := "t0" }

end MCPAgent

namespace MCPHttp

/-- A one-tool discovered map. -/
def c3Tools : ToolMap :=
  [("add", ⟨"Add two numbers together", [("a", "number"), ("b", "number")]⟩)]

/-- A healthy transport, never consulted for unknown names. -/
def c3Post : String → MCPAgent.Args → HttpResult :=
  fun _ _ => .ok [⟨some "4"⟩]

/-- A dead transport, to witness transport-independence. -/
def c3PostDown : String → MCPAgent.Args → HttpResult :=
  fun _ _ => .netError "connection refused"

end MCPHttp

namespace Gateway

/-- A provider response. -/
def gwData : ResponseData :=
  ⟨"It is 4.", ⟨12, 4, 16⟩, "stop", "gpt-4o"⟩

/-- An adapter that always answers `gwData`. -/
def gwAdapter : Adapter :=
  { name := "gpt-4o", provider := "openai",
    generate := fun _ _ _ => .ok gwData,
    estimate_cost := fun i o => ((i : ℚ) * 5 + (o : ℚ) * 15) / 1000000 }

/-- The same adapter with a failing provider call. -/
def gwAdapterDown : Adapter :=
  { gwAdapter with generate := fun _ _ _ => .error "OpenAI error: rate limited" }

/-- A registry holding the healthy adapter. -/
def gwRegistry : String → Option Adapter :=
  fun m => if m = "gpt-4o" then some gwAdapter else none

/-- A registry holding the failing adapter. -/
def gwRegistryDown : String → Option Adapter :=
  fun m => if m = "gpt-4o" then some gwAdapterDown else none

/-- A generation request. -/
def gwReq : GenerateRequest :=
  ⟨"gpt-4o", [⟨"system", "You are a helpful AI assistant"⟩, ⟨"user", "2+2?"⟩], 0, 2000⟩

/-- The empty gateway state. -/
def gwState0 : GatewayState :=
  ⟨[], []⟩

/-- A state whose cache already holds `gwReq`'s response, inserted at time 0. -/
def c10State : GatewayState :=
  ⟨[⟨reqKey gwReq, gwData, 0⟩], []⟩

/-- Two optional adapters registered the same way and carrying the same
cost estimator; their provider calls may differ arbitrarily. -/
def adaptersAgreeOnCost : Option Adapter → Option Adapter → Prop
  | none, none => True
  | some a, some a' => a.estimate_cost = a'.estimate_cost
  | _, _ => False

end Gateway

/-! # Shared lemmas -/

/-- The last element of a history extended by one message. -/
theorem getLast?_append_single {α : Type} (l : List α) (a : α) :
    (l ++ [a]).getLast? = some a :=
  List.getLast?_concat l

/-- A nonempty list is not `isEmpty`. -/
theorem isEmpty_false_of_ne_nil {α : Type} {l : List α} (h : l ≠ []) :
    l.isEmpty = false := by
  cases l with
  | nil => exact absurd rfl h
  | cons a as => rfl

namespace MCPAgent

/-- The tool-execution step on a last message with tool calls, written
out: one pass of the per-request loop. -/
theorem tool_execution_node_eq_of_calls
    (callTool : String → Args → Except String String)
    (messages : List Message) (steps : List StepRecord) (now : String)
    (last : Message) (hlast : messages.getLast? = some last)
    (hne : last.tool_calls ≠ []) :
    tool_execution_node callTool messages steps now = some
      { messages := last.tool_calls.map fun tc =>
          match callTool tc.name tc.args with
          | .ok r => ToolMessage r tc.id tc.name
          | .error e => ToolMessage ("Error: " ++ e) tc.id tc.name,
        steps := steps ++
          [[("node", .str "tool_execution"), ("timestamp", .str now),
            ("tools", .tools (last.tool_calls.filterMap fun tc =>
              match callTool tc.name tc.args with
              | .ok r => some { name := tc.name, args := tc.args, result := r }
              | .error _ => none))]] } := by
  unfold tool_execution_node
  rw [hlast]
  simp only [isEmpty_false_of_ne_nil hne, Bool.false_eq_true, if_false]

end MCPAgent

/-! # Claim theorems -/

namespace MCPAgent

/-- C1: for a last assistant message carrying `n ≥ 1` tool requests, the
tool-execution step produces exactly `n` tool-role messages, in request
order, the `i`-th correlated to the `i`-th request's `call_id`; a failed
invocation does not abort the others but contributes an error-content
tool message in its position; the produced messages are appended to the
history (which the next model call reads) by the `add_messages` reducer.
Holds for `tool_execution_node` in both `src/agents/agent-http` and
`src/agent`, whose tool-execution code is identical. -/
theorem tool_execution_appends_correlated_messages
    (callTool : String → Args → Except String String)
    (messages : List Message) (steps : List StepRecord) (now : String)
    (last : Message) (hlast : messages.getLast? = some last)
    (hne : last.tool_calls ≠ []) :
    ∃ d : NodeDelta,
      tool_execution_node callTool messages steps now = some d ∧
      d.messages.length = last.tool_calls.length ∧
      (∀ i : ℕ, ∀ hi : i < last.tool_calls.length, ∀ hm : i < d.messages.length,
        (d.messages.get ⟨i, hm⟩).role = .tool ∧
        (d.messages.get ⟨i, hm⟩).tool_call_id = some (last.tool_calls.get ⟨i, hi⟩).id ∧
        (∀ r, callTool (last.tool_calls.get ⟨i, hi⟩).name (last.tool_calls.get ⟨i, hi⟩).args = .ok r →
          (d.messages.get ⟨i, hm⟩).content = r) ∧
        (∀ e, callTool (last.tool_calls.get ⟨i, hi⟩).name (last.tool_calls.get ⟨i, hi⟩).args = .error e →
          (d.messages.get ⟨i, hm⟩).content = "Error: " ++ e)) ∧
      applyMessages messages d.messages = messages ++ d.messages := by
  refine ⟨_, tool_execution_node_eq_of_calls callTool messages steps now last hlast hne,
    ?_, ?_, rfl⟩
  · simp
  · intro i hi hm
    simp only [List.get_eq_getElem, List.getElem_map]
    cases hct : callTool last.tool_calls[i].name last.tool_calls[i].args with
    | ok r =>
      refine ⟨by simp [ToolMessage], by simp [ToolMessage], ?_, ?_⟩
      · intro r' hr'
        injection hr' with h
      · intro e he
        simp at he
    | error e =>
      refine ⟨by simp [ToolMessage], by simp [ToolMessage], ?_, ?_⟩
      · intro r' hr'
        simp at hr'
      · intro e' he'
        injection he' with h
        subst h
        rfl

end MCPAgent

namespace MCPAgent

/-- Witness for C1 at a two-request message, the second request failing. -/
theorem tool_execution_appends_correlated_messages_witness :
    ∃ d : NodeDelta,
      tool_execution_node c1CallTool c1History [] "t1" = some d ∧
      d.messages.length = c1Last.tool_calls.length ∧
      (∀ i : ℕ, ∀ hi : i < c1Last.tool_calls.length, ∀ hm : i < d.messages.length,
        (d.messages.get ⟨i, hm⟩).role = .tool ∧
        (d.messages.get ⟨i, hm⟩).tool_call_id = some (c1Last.tool_calls.get ⟨i, hi⟩).id ∧
        (∀ r, c1CallTool (c1Last.tool_calls.get ⟨i, hi⟩).name (c1Last.tool_calls.get ⟨i, hi⟩).args = .ok r →
          (d.messages.get ⟨i, hm⟩).content = r) ∧
        (∀ e, c1CallTool (c1Last.tool_calls.get ⟨i, hi⟩).name (c1Last.tool_calls.get ⟨i, hi⟩).args = .error e →
          (d.messages.get ⟨i, hm⟩).content = "Error: " ++ e)) ∧
      applyMessages c1History d.messages = c1History ++ d.messages :=
  tool_execution_appends_correlated_messages c1CallTool c1History [] "t1" c1Last
    (by decide) (by decide)

/-- C9: entered with a last message carrying no tool calls, the
tool-execution step returns only the step list — no messages — so the
merged history is unchanged. Holds for `tool_execution_node` in both
`src/agents/agent-http` and `src/agent`. -/
theorem tool_execution_without_requests_leaves_history
    (callTool : String → Args → Except String String)
    (messages : List Message) (steps : List StepRecord) (now : String)
    (last : Message) (hlast : messages.getLast? = some last)
    (hnone : last.tool_calls = []) :
    tool_execution_node callTool messages steps now =
      some { messages := [], steps := steps } ∧
    applyMessages messages [] = messages := by
  constructor
  · unfold tool_execution_node
    rw [hlast]
    simp [hnone]
  · simp [applyMessages]

/-- Witness for C9 at a request-free assistant message. -/
theorem tool_execution_without_requests_leaves_history_witness :
    tool_execution_node c9CallTool c9History [] "t1" =
      some { messages := [], steps := [] } ∧
    applyMessages c9History [] = c9History :=
  tool_execution_without_requests_leaves_history c9CallTool c9History [] "t1" c9Last
    (by decide) (by decide)

end MCPAgent

namespace MCPAgent

/-- C4: a model reply that claims a tool call (`TOOL_CALL:` occurs in its
text) but fails to parse — the parse raising (malformed JSON arguments),
or no line yielding a (nonempty) tool name (malformed marker) — attaches
no tool request to the assistant message; no error escapes (the embedding
is total); the routing decision on the extended history is `"final"`,
and the finalize step extracts the reply's content as the final answer. -/
theorem malformed_tool_request_routes_to_finalize
    (jsonLoads : String → Option Args) (text call_id : String)
    (history : List Message) (render : Message → String)
    (steps : List StepRecord) (now : String)
    (hmarker : containsSub text "TOOL_CALL:" = true)
    (hfail :
      parseToolLines jsonLoads (pySplit (pyStrip text) "\n") none [] = none ∨
      (∃ a, parseToolLines jsonLoads (pySplit (pyStrip text) "\n") none [] = some (none, a)) ∨
      (∃ a, parseToolLines jsonLoads (pySplit (pyStrip text) "\n") none [] = some (some "", a))) :
    (llm_response_message jsonLoads text call_id).tool_calls = [] ∧
    route_decision (applyMessages history [llm_response_message jsonLoads text call_id]) =
      some "final" ∧
    (∃ steps', final_answer_node render
      (applyMessages history [llm_response_message jsonLoads text call_id]) steps now =
        some (text, steps')) := by
  have hext : extractToolCalls jsonLoads text call_id = [] := by
    unfold extractToolCalls
    rw [hmarker, if_pos rfl]
    rcases hfail with h | ⟨a, h⟩ | ⟨a, h⟩
    · rw [h]
    · rw [h]
    · rw [h]
      simp
  refine ⟨hext, ?_, ?_⟩
  · unfold route_decision applyMessages
    rw [getLast?_append_single]
    simp [llm_response_message, AIMessage, hext]
  · refine ⟨steps ++ [[("node", StepValue.str "final_answer"), ("timestamp", .str now)]], ?_⟩
    unfold final_answer_node applyMessages
    rw [getLast?_append_single]
    simp [llm_response_message, AIMessage]

/-- Witness for C4 at a reply whose `ARGUMENTS:` line fails `json.loads`. -/
theorem malformed_tool_request_routes_to_finalize_witness :
    (llm_response_message c4JsonLoads c4Text "call_1").tool_calls = [] ∧
    route_decision (applyMessages c4History [llm_response_message c4JsonLoads c4Text "call_1"]) =
      some "final" ∧
    (∃ steps', final_answer_node c4Render
      (applyMessages c4History [llm_response_message c4JsonLoads c4Text "call_1"]) [] "t1" =
        some (c4Text, steps')) :=
  malformed_tool_request_routes_to_finalize c4JsonLoads c4Text "call_1" c4History c4Render
    [] "t1" (by decide) (Or.inl (by decide))

end MCPAgent

namespace MCPAgent

/-- Every model name the detector can return is nonempty. -/
theorem detect_model_ne_empty (input : String) (d : String)
    (h : detect_model_from_text input = some d) : d ≠ "" := by
  unfold detect_model_from_text at h
  simp only [] at h
  split_ifs at h <;> (injection h with h'; subst h'; decide)

/-- C7: the input-processing step infers a model from the text only when
the caller supplied none — a truthy state model survives unchanged,
whatever the text says; with no state model, the result's model is
exactly what the deterministic keyword detector returns. -/
theorem process_input_model_inference
    (user_input : String) (state_model : Option String)
    (steps : List StepRecord) (now : String) :
    (truthyStr state_model = true →
      (process_input_node user_input state_model steps now).model = state_model ∧
      model_after_process_input state_model
        (process_input_node user_input state_model steps now) = state_model) ∧
    (state_model = none →
      (process_input_node user_input state_model steps now).model =
        detect_model_from_text user_input) := by
  constructor
  · intro htruthy
    unfold process_input_node model_after_process_input
    simp only [htruthy, if_true]
    cases state_model with
    | none => simp [truthyStr] at htruthy
    | some m => simp [htruthy]
  · intro hnone
    subst hnone
    unfold process_input_node
    simp only [truthyStr, Bool.false_eq_true, if_false]
    cases hdet : detect_model_from_text user_input with
    | none => simp [truthyStr]
    | some d =>
      have hne := detect_model_ne_empty user_input d hdet
      simp [truthyStr, String.isEmpty_iff, hne]

/-- Witness for C7: an explicit `gemini-pro` survives a text asking for
OpenAI, and the same text with no explicit model selects `gpt-4o`. -/
theorem process_input_model_inference_witness :
    ((truthyStr (some "gemini-pro") = true →
      (process_input_node "suma 2+2 con openai" (some "gemini-pro") [] "t0").model =
        some "gemini-pro" ∧
      model_after_process_input (some "gemini-pro")
        (process_input_node "suma 2+2 con openai" (some "gemini-pro") [] "t0") =
          some "gemini-pro") ∧
    (some "gemini-pro" = none →
      (process_input_node "suma 2+2 con openai" (some "gemini-pro") [] "t0").model =
        detect_model_from_text "suma 2+2 con openai")) ∧
    ((process_input_node "suma 2+2 con openai" none [] "t0").model = some "gpt-4o") := by
  constructor
  · exact process_input_model_inference "suma 2+2 con openai" (some "gemini-pro") [] "t0"
  · have h := (process_input_model_inference "suma 2+2 con openai" none [] "t0").2 rfl
    rw [h]
    decide

end MCPAgent

namespace MCPAgent

/-- Appending one record with known keys keeps the step keys valid. -/
theorem stepsKeysOk_append {steps : List StepRecord} {rec : StepRecord}
    (h : stepsKeysOk steps) (hrec : ∀ kv ∈ rec, kv.1 ∈ stepKeys) :
    stepsKeysOk (steps ++ [rec]) := by
  intro r hr
  rw [List.mem_append] at hr
  rcases hr with hr | hr
  · exact h r hr
  · simp only [List.mem_singleton] at hr
    subst hr
    exact hrec

/-- Membership in a fixed record extended by one conditional key. -/
theorem keys_ok_of_append_ite (A : List (String × StepValue)) (c : Bool)
    (x : String × StepValue) (hA : ∀ kv ∈ A, kv.1 ∈ stepKeys) (hx : x.1 ∈ stepKeys) :
    ∀ kv ∈ A ++ (if c then [x] else []), kv.1 ∈ stepKeys := by
  intro kv hkv
  rw [List.mem_append] at hkv
  rcases hkv with hkv | hkv
  · exact hA kv hkv
  · cases c with
    | false => simp at hkv
    | true =>
      simp only [if_true, List.mem_singleton] at hkv
      subst hkv
      exact hx

/-- The record `process_input_node` appends uses only known keys. -/
theorem process_input_keys (user_input : String) (state_model : Option String)
    (steps : List StepRecord) (now : String) (h : stepsKeysOk steps) :
    stepsKeysOk (process_input_node user_input state_model steps now).steps := by
  unfold process_input_node
  refine stepsKeysOk_append h (keys_ok_of_append_ite _ _ _ ?_ ?_)
  · intro kv hkv
    simp only [List.mem_cons, List.mem_singleton, List.not_mem_nil, or_false] at hkv
    rcases hkv with rfl | rfl | rfl <;> simp [stepKeys]
  · simp [stepKeys]

/-- The record `llm_node` appends uses only known keys. -/
theorem llm_node_keys (gen : List Message → String) (jsonLoads : String → Option Args)
    (tools : List ToolDescr) (model_used : String) (cached : Bool) (latency_ms : ℚ)
    (call_id now : String) (messages : List Message) (steps : List StepRecord)
    (h : stepsKeysOk steps) :
    stepsKeysOk (llm_node gen jsonLoads tools model_used cached latency_ms
      call_id now messages steps).steps := by
  unfold llm_node
  refine stepsKeysOk_append h ?_
  intro kv hkv
  simp only [List.mem_cons, List.mem_singleton, List.not_mem_nil, or_false] at hkv
  rcases hkv with rfl | rfl | rfl | rfl | rfl | rfl <;> simp [stepKeys]

/-- C2 (amended): the compiled workflow has no round cap — the edge out
of tool execution returns unconditionally to the model call, so against
a model whose every reply parses to at least one tool request, no number
of transitions ever reaches `FINALIZE`: the run stays defined, the node
never becomes `END`, no final answer is set, and no step record ever
carries a truncation key (every key written is from `stepKeys`, which
holds no truncation marker). Mirrors `create_workflow` in both
`src/agents/agent-http/src/graph/workflow.py` and
`src/agent/src/graph/workflow.py`, neither of which counts rounds. -/
theorem no_round_cap_loop_never_finalizes
    (env : WorkflowEnv) (user_input : String) (model : Option String)
    (htools : ∀ msgs, extractToolCalls env.jsonLoads (env.gen msgs) env.call_id ≠ []) :
    ∀ n : ℕ, ∃ s' : TurnState,
      runWorkflow env n (initTurnState user_input model) = some s' ∧
      s'.node ≠ GNode.done ∧ s'.final_answer = none ∧ stepsKeysOk s'.steps := by
  have step : ∀ s : TurnState,
      (s.final_answer = none ∧ stepsKeysOk s.steps ∧
        (s.node = .process_input ∨ s.node = .llm ∨
          (s.node = .tool_execution ∧
            ∃ last, s.messages.getLast? = some last ∧ last.tool_calls ≠ []))) →
      ∃ s', workflowStep env s = some s' ∧
        (s'.final_answer = none ∧ stepsKeysOk s'.steps ∧
          (s'.node = .process_input ∨ s'.node = .llm ∨
            (s'.node = .tool_execution ∧
              ∃ last, s'.messages.getLast? = some last ∧ last.tool_calls ≠ []))) := by
    rintro s ⟨hfa, hkeys, hnode⟩
    rcases hnode with hn | hn | ⟨hn, last, hlast, hne⟩
    · let out := process_input_node s.user_input s.model s.steps env.now
      let s₁ : TurnState := ⟨.llm, s.user_input, model_after_process_input s.model out,
        applyMessages s.messages out.messages, out.steps, s.final_answer⟩
      refine ⟨s₁, ?_, hfa, process_input_keys _ _ _ _ hkeys, Or.inr (Or.inl rfl)⟩
      unfold workflowStep
      rw [hn]
    · have hcalls := htools (SystemMessage (system_prompt env.tools) :: s.messages)
      have hroute : route_decision (applyMessages s.messages
          (llm_node env.gen env.jsonLoads env.tools env.model_used env.cached
            env.latency_ms env.call_id env.now s.messages s.steps).messages) =
          some "tools" := by
        unfold llm_node route_decision applyMessages
        rw [getLast?_append_single]
        simp [llm_response_message, AIMessage, isEmpty_false_of_ne_nil hcalls, hcalls]
      let s₁ : TurnState := ⟨.tool_execution, s.user_input, s.model,
        applyMessages s.messages
          (llm_node env.gen env.jsonLoads env.tools env.model_used env.cached
            env.latency_ms env.call_id env.now s.messages s.steps).messages,
        (llm_node env.gen env.jsonLoads env.tools env.model_used env.cached
          env.latency_ms env.call_id env.now s.messages s.steps).steps, s.final_answer⟩
      refine ⟨s₁, ?_, hfa, llm_node_keys _ _ _ _ _ _ _ _ _ _ hkeys, ?_⟩
      · unfold workflowStep
        rw [hn]
        simp only [hroute]
        simp
      · refine Or.inr (Or.inr ⟨rfl, ?_⟩)
        refine ⟨llm_response_message env.jsonLoads
          (env.gen (SystemMessage (system_prompt env.tools) :: s.messages)) env.call_id, ?_, hcalls⟩
        show (applyMessages s.messages
          (llm_node env.gen env.jsonLoads env.tools env.model_used env.cached
            env.latency_ms env.call_id env.now s.messages s.steps).messages).getLast? = _
        unfold llm_node applyMessages
        exact getLast?_append_single _ _
    · let d : NodeDelta := ⟨last.tool_calls.map fun tc =>
          match env.callTool tc.name tc.args with
          | .ok r => ToolMessage r tc.id tc.name
          | .error e => ToolMessage ("Error: " ++ e) tc.id tc.name,
        s.steps ++
          [[("node", .str "tool_execution"), ("timestamp", .str env.now),
            ("tools", .tools (last.tool_calls.filterMap fun tc =>
              match env.callTool tc.name tc.args with
              | .ok r => some ⟨tc.name, tc.args, r⟩
              | .error _ => none))]]⟩
      let s₁ : TurnState := ⟨.llm, s.user_input, s.model,
        applyMessages s.messages d.messages, d.steps, s.final_answer⟩
      refine ⟨s₁, ?_, hfa, ?_, Or.inr (Or.inl rfl)⟩
      · unfold workflowStep
        rw [hn, tool_execution_node_eq_of_calls env.callTool s.messages s.steps env.now
          last hlast hne]
      · refine stepsKeysOk_append hkeys ?_
        intro kv hkv
        simp only [List.mem_cons, List.mem_singleton, List.not_mem_nil, or_false] at hkv
        rcases hkv with rfl | rfl | rfl <;> simp [stepKeys]
  have run : ∀ n : ℕ, ∀ s : TurnState,
      (s.final_answer = none ∧ stepsKeysOk s.steps ∧
        (s.node = .process_input ∨ s.node = .llm ∨
          (s.node = .tool_execution ∧
            ∃ last, s.messages.getLast? = some last ∧ last.tool_calls ≠ []))) →
      ∃ s', runWorkflow env n s = some s' ∧
        (s'.final_answer = none ∧ stepsKeysOk s'.steps ∧
          (s'.node = .process_input ∨ s'.node = .llm ∨
            (s'.node = .tool_execution ∧
              ∃ last, s'.messages.getLast? = some last ∧ last.tool_calls ≠ []))) := by
    intro n
    induction n with
    | zero => exact fun s hs => ⟨s, rfl, hs⟩
    | succ n ih =>
      intro s hs
      obtain ⟨s₁, hstep, hs₁⟩ := step s hs
      obtain ⟨s', hrun, hs'⟩ := ih s₁ hs₁
      exact ⟨s', by simp only [runWorkflow, hstep]; exact hrun, hs'⟩
  intro n
  obtain ⟨s', hrun, hfa, hkeys, hnode⟩ :=
    run n (initTurnState user_input model)
      ⟨rfl, by intro r hr; simp [initTurnState] at hr, Or.inl rfl⟩
  refine ⟨s', hrun, ?_, hfa, hkeys⟩
  rcases hnode with hn | hn | ⟨hn, _⟩ <;> (rw [hn]; decide)

/-- Witness for the amended C2: the always-tool-requesting environment
`c2Env`, run for 25 transitions. -/
theorem no_round_cap_loop_never_finalizes_witness :
    ∃ s' : TurnState,
      runWorkflow c2Env 25 (initTurnState "2+2 please" none) = some s' ∧
      s'.node ≠ GNode.done ∧ s'.final_answer = none ∧ stepsKeysOk s'.steps :=
  no_round_cap_loop_never_finalizes c2Env "2+2 please" none
    (fun _ => by
      show extractToolCalls (fun _ => some []) "TOOL_CALL: add\nARGUMENTS: \x7b\x7d"
        "call_0" ≠ []
      decide) 25

/-- Counterexample to C2 as stated: against the always-tool-requesting
environment `c2Env`, 25 workflow transitions (12 tool rounds — more than
the 8–10-round cap the spec considers reasonable) leave the turn still
running: the node is not `END` and no final answer has been produced, so
no bounded round count forces `FINALIZE`. -/
theorem claim_round_cap_counterexample :
    (runWorkflow c2Env 25 (initTurnState "2+2 please" none)).map TurnState.node ≠
      some GNode.done ∧
    (runWorkflow c2Env 25 (initTurnState "2+2 please" none)).map TurnState.final_answer =
      some none := by
  constructor <;> decide

end MCPAgent

namespace MCPHttp

/-- Counterexample to C3 as stated: invoking the unknown name `"ghost"`
on a client that discovered only `"add"` does not return a tagged
`ToolNotFound` outcome — `MCPClient.call_tool` raises `ValueError`
(`Except.error` here encodes an exception escaping the method), so "never
raises past this boundary" is false of the code. -/
theorem claim_client_never_raises_counterexample :
    call_tool c3Post c3Tools "ghost" [] =
      .error (.valueError "Tool 'ghost' not found. Available tools: ['add']") := by
  rfl

/-- C3 (amended): an unknown tool name makes `call_tool` raise
`ValueError` immediately, and the outcome is independent of the transport
(no network call is performed); the raised error is not a returned tagged
outcome but an exception, which the caller `tool_execution_node` catches,
appending exactly one error-content tool message correlated to the
request, so the turn continues. -/
theorem unknown_tool_raises_before_network
    (post post' : String → MCPAgent.Args → HttpResult) (tools : ToolMap)
    (tool_name : String) (arguments : MCPAgent.Args)
    (hunknown : tools.lookup tool_name = none)
    (messages : List MCPAgent.Message) (steps : List MCPAgent.StepRecord)
    (now : String) (last : MCPAgent.Message) (cid : String)
    (hlast : messages.getLast? = some last)
    (hcalls : last.tool_calls = [⟨tool_name, arguments, cid⟩]) :
    call_tool post tools tool_name arguments =
      call_tool post' tools tool_name arguments ∧
    call_tool post tools tool_name arguments =
      .error (.valueError (toolNotFoundMsg tool_name tools)) ∧
    (∃ d : MCPAgent.NodeDelta,
      MCPAgent.tool_execution_node (clientCallTool post tools) messages steps now = some d ∧
      d.messages =
        [MCPAgent.ToolMessage ("Error: " ++ toolNotFoundMsg tool_name tools) cid tool_name]) := by
  have hraise : call_tool post tools tool_name arguments =
      .error (.valueError (toolNotFoundMsg tool_name tools)) := by
    unfold call_tool
    rw [hunknown]
    rfl
  have hraise' : call_tool post' tools tool_name arguments =
      .error (.valueError (toolNotFoundMsg tool_name tools)) := by
    unfold call_tool
    rw [hunknown]
    rfl
  refine ⟨hraise.trans hraise'.symm, hraise, ?_⟩
  have hne : last.tool_calls ≠ [] := by rw [hcalls]; exact List.cons_ne_nil _ _
  refine ⟨_, MCPAgent.tool_execution_node_eq_of_calls (clientCallTool post tools)
    messages steps now last hlast hne, ?_⟩
  rw [hcalls]
  simp only [List.map_cons, List.map_nil]
  rw [show clientCallTool post tools tool_name arguments =
    .error (toolNotFoundMsg tool_name tools) by unfold clientCallTool; rw [hraise]; rfl]

/-- Witness for the amended C3 at the one-tool client, with both a
healthy and a dead transport. -/
theorem unknown_tool_raises_before_network_witness :
    call_tool c3Post c3Tools "ghost" [("x", "1")] =
      call_tool c3PostDown c3Tools "ghost" [("x", "1")] ∧
    call_tool c3Post c3Tools "ghost" [("x", "1")] =
      .error (.valueError (toolNotFoundMsg "ghost" c3Tools)) ∧
    (∃ d : MCPAgent.NodeDelta,
      MCPAgent.tool_execution_node (clientCallTool c3Post c3Tools)
        [MCPAgent.AIMessage "TOOL_CALL: ghost" [⟨"ghost", [("x", "1")], "call_9"⟩]] [] "t1" =
        some d ∧
      d.messages =
        [MCPAgent.ToolMessage ("Error: " ++ toolNotFoundMsg "ghost" c3Tools) "call_9" "ghost"]) :=
  unknown_tool_raises_before_network c3Post c3PostDown c3Tools "ghost" [("x", "1")]
    (by decide)
    [MCPAgent.AIMessage "TOOL_CALL: ghost" [⟨"ghost", [("x", "1")], "call_9"⟩]] [] "t1"
    (MCPAgent.AIMessage "TOOL_CALL: ghost" [⟨"ghost", [("x", "1")], "call_9"⟩]) "call_9"
    (by decide) (by decide)

end MCPHttp

namespace Gateway

/-- The response-finishing tail, written out when the adapter resolves. -/
theorem finishResponse_of_reg (registry : String → Option Adapter)
    (req : GenerateRequest) (st : GatewayState) (cache' : Cache)
    (data : ResponseData) (cached : Bool) (t0 t1 : ℚ) (adapter : Adapter)
    (hreg : registry req.model = some adapter) :
    finishResponse registry req st cache' data cached t0 t1 =
      (.ok ⟨data.content, data.model, data.usage, data.finish_reason, cached,
          roundTo 2 ((t1 - t0) * 1000),
          roundTo 6 (adapter.estimate_cost data.usage.input_tokens data.usage.output_tokens)⟩,
        ⟨cache', metricsRecord st.metrics
          ⟨req.model, data.usage.total_tokens,
            adapter.estimate_cost data.usage.input_tokens data.usage.output_tokens,
            (t1 - t0) * 1000, cached, false⟩⟩) := by
  unfold finishResponse get_llm
  rw [hreg]

/-- Whatever the adapter lookup does, the finishing tail returns the
cache it was handed. -/
theorem finishResponse_cache (registry : String → Option Adapter)
    (req : GenerateRequest) (st : GatewayState) (cache' : Cache)
    (data : ResponseData) (cached : Bool) (t0 t1 : ℚ) :
    (finishResponse registry req st cache' data cached t0 t1).2.cache = cache' := by
  unfold finishResponse
  cases get_llm registry req.model <;> rfl

/-- A cache hit routes `generate_response` straight to the finishing
tail with `cached := true` and an untouched cache. -/
theorem generate_response_hit (registry : String → Option Adapter) (ttl : ℚ)
    (maxSize : Nat) (req : GenerateRequest) (st : GatewayState) (t0 t1 : ℚ)
    (data : ResponseData)
    (hhit : cacheGet ttl st.cache (reqKey req) t0 = some data) :
    generate_response registry ttl maxSize req st t0 t1 =
      finishResponse registry req st st.cache data true t0 t1 := by
  unfold generate_response
  rw [hhit]

/-- A miss with a healthy adapter stores the fresh response and finishes
with `cached := false`. -/
theorem generate_response_miss_ok (registry : String → Option Adapter) (ttl : ℚ)
    (maxSize : Nat) (req : GenerateRequest) (st : GatewayState) (t0 t1 : ℚ)
    (adapter : Adapter) (data : ResponseData)
    (hmiss : cacheGet ttl st.cache (reqKey req) t0 = none)
    (hreg : registry req.model = some adapter)
    (hgen : adapter.generate req.messages req.temperature req.max_tokens = .ok data) :
    generate_response registry ttl maxSize req st t0 t1 =
      finishResponse registry req st (cacheSet maxSize st.cache (reqKey req) data t1)
        data false t0 t1 := by
  unfold generate_response get_llm
  simp only [hmiss, hreg, hgen]

/-- A miss with a failing adapter yields the 500 handler: an error
metric, an untouched cache and no response. -/
theorem generate_response_miss_err (registry : String → Option Adapter) (ttl : ℚ)
    (maxSize : Nat) (req : GenerateRequest) (st : GatewayState) (t0 t1 : ℚ)
    (adapter : Adapter) (e : String)
    (hmiss : cacheGet ttl st.cache (reqKey req) t0 = none)
    (hreg : registry req.model = some adapter)
    (hgen : adapter.generate req.messages req.temperature req.max_tokens = .error e) :
    generate_response registry ttl maxSize req st t0 t1 =
      (.httpError 500 ("Failed to generate response: " ++ e),
        ⟨st.cache, metricsRecord st.metrics ⟨req.model, 0, 0, (t1 - t0) * 1000, false, true⟩⟩) := by
  unfold generate_response get_llm
  simp only [hmiss, hreg, hgen]

/-- A freshly written cache entry is a hit for its own key while the TTL
has not elapsed. -/
theorem cacheGet_cacheSet_same (ttl : ℚ) (maxSize : Nat) (c : Cache)
    (k : CacheKey) (r : ResponseData) (t now : ℚ)
    (hsize : 1 ≤ maxSize) (hlive : now < t + ttl) :
    cacheGet ttl (cacheSet maxSize c k r t) k now = some r := by
  obtain ⟨m, rfl⟩ := Nat.exists_eq_add_of_le hsize
  unfold cacheSet cacheGet
  rw [Nat.add_comm 1 m, List.take_succ_cons, List.find?_cons_of_pos _ (by simp)]
  simp only [if_pos hlive]

end Gateway

namespace Gateway

/-- C5: two identical requests `(model, messages, temperature,
max_tokens)`, the first a miss whose adapter call succeeds, the second
arriving while the first's entry is live (`t0₂ < t1₁ + ttl`): the second
returns `cached = true` with content identical to the first, appends a
cache-hit (non-error) metric, and invokes no adapter's `generate` — its
outcome is unchanged under any registry holding the same adapters with
the same cost estimators but arbitrary provider calls. The cache and
metrics collaborators are modelled from the spec (`cache.py`,
`metrics.py`, `registry.py` are not under `src/`). -/
theorem second_identical_request_served_from_cache
    (registry : String → Option Adapter) (ttl : ℚ) (maxSize : Nat)
    (req : GenerateRequest) (st : GatewayState) (t0₁ t1₁ t0₂ t1₂ : ℚ)
    (adapter : Adapter) (data : ResponseData)
    (hreg : registry req.model = some adapter)
    (hgen : adapter.generate req.messages req.temperature req.max_tokens = .ok data)
    (hmiss : cacheGet ttl st.cache (reqKey req) t0₁ = none)
    (hsize : 1 ≤ maxSize)
    (hlive : t0₂ < t1₁ + ttl) :
    ∃ resp1 resp2 : GenerateResponse,
      (generate_response registry ttl maxSize req st t0₁ t1₁).1 = .ok resp1 ∧
      (generate_response registry ttl maxSize req
        (generate_response registry ttl maxSize req st t0₁ t1₁).2 t0₂ t1₂).1 = .ok resp2 ∧
      resp1.cached = false ∧
      resp2.cached = true ∧
      resp2.content = resp1.content ∧
      (∃ rec : MetricRecord,
        (generate_response registry ttl maxSize req
          (generate_response registry ttl maxSize req st t0₁ t1₁).2 t0₂ t1₂).2.metrics =
          metricsRecord
            (generate_response registry ttl maxSize req st t0₁ t1₁).2.metrics rec ∧
        rec.cached = true ∧ rec.error = false) ∧
      (∀ registry' : String → Option Adapter,
        (∀ m, adaptersAgreeOnCost (registry m) (registry' m)) →
        generate_response registry' ttl maxSize req
          (generate_response registry ttl maxSize req st t0₁ t1₁).2 t0₂ t1₂ =
        generate_response registry ttl maxSize req
          (generate_response registry ttl maxSize req st t0₁ t1₁).2 t0₂ t1₂) := by
  have h1 := generate_response_miss_ok registry ttl maxSize req st t0₁ t1₁ adapter data
    hmiss hreg hgen
  have h1' := finishResponse_of_reg registry req st
    (cacheSet maxSize st.cache (reqKey req) data t1₁) data false t0₁ t1₁ adapter hreg
  have hhit : cacheGet ttl
      (generate_response registry ttl maxSize req st t0₁ t1₁).2.cache (reqKey req) t0₂ =
      some data := by
    rw [h1, h1']
    exact cacheGet_cacheSet_same ttl maxSize st.cache (reqKey req) data t1₁ t0₂ hsize hlive
  have h2 := generate_response_hit registry ttl maxSize req
    (generate_response registry ttl maxSize req st t0₁ t1₁).2 t0₂ t1₂ data hhit
  have h2' := finishResponse_of_reg registry req
    (generate_response registry ttl maxSize req st t0₁ t1₁).2
    (generate_response registry ttl maxSize req st t0₁ t1₁).2.cache data true t0₂ t1₂
    adapter hreg
  refine ⟨⟨data.content, data.model, data.usage, data.finish_reason, false,
      roundTo 2 ((t1₁ - t0₁) * 1000),
      roundTo 6 (adapter.estimate_cost data.usage.input_tokens data.usage.output_tokens)⟩,
    ⟨data.content, data.model, data.usage, data.finish_reason, true,
      roundTo 2 ((t1₂ - t0₂) * 1000),
      roundTo 6 (adapter.estimate_cost data.usage.input_tokens data.usage.output_tokens)⟩,
    ?_, ?_, rfl, rfl, rfl, ?_, ?_⟩
  · rw [h1, h1']
  · rw [h2, h2']
  · refine ⟨⟨req.model, data.usage.total_tokens,
      adapter.estimate_cost data.usage.input_tokens data.usage.output_tokens,
      (t1₂ - t0₂) * 1000, true, false⟩, ?_, rfl, rfl⟩
    rw [h2, h2']
  · intro registry' hagree
    have hag := hagree req.model
    rw [hreg] at hag
    cases hr : registry' req.model with
    | none =>
      rw [hr] at hag
      simp [adaptersAgreeOnCost] at hag
    | some a' =>
      rw [hr] at hag
      have hcost : adapter.estimate_cost = a'.estimate_cost := hag
      have h2r := generate_response_hit registry' ttl maxSize req
        (generate_response registry ttl maxSize req st t0₁ t1₁).2 t0₂ t1₂ data hhit
      have h2r' := finishResponse_of_reg registry' req
        (generate_response registry ttl maxSize req st t0₁ t1₁).2
        (generate_response registry ttl maxSize req st t0₁ t1₁).2.cache data true t0₂ t1₂
        a' hr
      rw [h2r, h2r', h2, h2', hcost]

end Gateway

namespace Gateway

/-- Witness for C5: the same request twice against `gwRegistry`, times
`t0₁ = 0, t1₁ = 1, t0₂ = 2, t1₂ = 3`, TTL 300, capacity 100. -/
theorem second_identical_request_served_from_cache_witness :
    ∃ resp1 resp2 : GenerateResponse,
      (generate_response gwRegistry 300 100 gwReq gwState0 0 1).1 = .ok resp1 ∧
      (generate_response gwRegistry 300 100 gwReq
        (generate_response gwRegistry 300 100 gwReq gwState0 0 1).2 2 3).1 = .ok resp2 ∧
      resp1.cached = false ∧
      resp2.cached = true ∧
      resp2.content = resp1.content ∧
      (∃ rec : MetricRecord,
        (generate_response gwRegistry 300 100 gwReq
          (generate_response gwRegistry 300 100 gwReq gwState0 0 1).2 2 3).2.metrics =
          metricsRecord
            (generate_response gwRegistry 300 100 gwReq gwState0 0 1).2.metrics rec ∧
        rec.cached = true ∧ rec.error = false) ∧
      (∀ registry' : String → Option Adapter,
        (∀ m, adaptersAgreeOnCost (gwRegistry m) (registry' m)) →
        generate_response registry' 300 100 gwReq
          (generate_response gwRegistry 300 100 gwReq gwState0 0 1).2 2 3 =
        generate_response gwRegistry 300 100 gwReq
          (generate_response gwRegistry 300 100 gwReq gwState0 0 1).2 2 3) :=
  second_identical_request_served_from_cache gwRegistry 300 100 gwReq gwState0 0 1 2 3
    gwAdapter gwData rfl rfl rfl (by decide) (by norm_num)

/-- C6: a request whose adapter call raises leaves the cache exactly as
it was, appends an error metric, and surfaces a 500; and in general the
cache changes only when a registered adapter's call returns success, the
new cache being the old one with that successful response admitted. The
cache, metrics and registry collaborators are modelled from the spec
(`cache.py`, `metrics.py`, `registry.py` are not under `src/`). -/
theorem adapter_failure_never_cached
    (registry : String → Option Adapter) (ttl : ℚ) (maxSize : Nat)
    (req : GenerateRequest) (st : GatewayState) (t0 t1 : ℚ)
    (adapter : Adapter) (e : String)
    (hmiss : cacheGet ttl st.cache (reqKey req) t0 = none)
    (hreg : registry req.model = some adapter)
    (hgen : adapter.generate req.messages req.temperature req.max_tokens = .error e) :
    (generate_response registry ttl maxSize req st t0 t1).2.cache = st.cache ∧
    (∃ rec : MetricRecord,
      (generate_response registry ttl maxSize req st t0 t1).2.metrics =
        metricsRecord st.metrics rec ∧ rec.error = true ∧ rec.cached = false) ∧
    (∃ detail, (generate_response registry ttl maxSize req st t0 t1).1 =
      .httpError 500 detail) ∧
    (∀ (req' : GenerateRequest) (st' : GatewayState) (t0' t1' : ℚ),
      (generate_response registry ttl maxSize req' st' t0' t1').2.cache ≠ st'.cache →
      ∃ (a : Adapter) (data : ResponseData),
        registry req'.model = some a ∧
        a.generate req'.messages req'.temperature req'.max_tokens = .ok data ∧
        (generate_response registry ttl maxSize req' st' t0' t1').2.cache =
          cacheSet maxSize st'.cache (reqKey req') data t1') := by
  have herr := generate_response_miss_err registry ttl maxSize req st t0 t1 adapter e
    hmiss hreg hgen
  refine ⟨by rw [herr], ⟨⟨req.model, 0, 0, (t1 - t0) * 1000, false, true⟩,
    by rw [herr], rfl, rfl⟩, ⟨"Failed to generate response: " ++ e, by rw [herr]⟩, ?_⟩
  intro req' st' t0' t1' hchanged
  cases hget : cacheGet ttl st'.cache (reqKey req') t0' with
  | some d =>
    exfalso
    apply hchanged
    rw [generate_response_hit registry ttl maxSize req' st' t0' t1' d hget]
    exact finishResponse_cache registry req' st' st'.cache d true t0' t1'
  | none =>
    cases hr : registry req'.model with
    | none =>
      exfalso
      apply hchanged
      unfold generate_response get_llm
      simp only [hget, hr]
    | some a =>
      cases hg : a.generate req'.messages req'.temperature req'.max_tokens with
      | error e' =>
        exfalso
        apply hchanged
        rw [generate_response_miss_err registry ttl maxSize req' st' t0' t1' a e'
          hget hr hg]
      | ok data =>
        refine ⟨a, data, rfl, hg, ?_⟩
        rw [generate_response_miss_ok registry ttl maxSize req' st' t0' t1' a data
          hget hr hg]
        exact finishResponse_cache registry req' st'
          (cacheSet maxSize st'.cache (reqKey req') data t1') data false t0' t1'

/-- Witness for C6: the failing adapter registry `gwRegistryDown` on an
empty state. -/
theorem adapter_failure_never_cached_witness :
    (generate_response gwRegistryDown 300 100 gwReq gwState0 0 1).2.cache =
      gwState0.cache ∧
    (∃ rec : MetricRecord,
      (generate_response gwRegistryDown 300 100 gwReq gwState0 0 1).2.metrics =
        metricsRecord gwState0.metrics rec ∧ rec.error = true ∧ rec.cached = false) ∧
    (∃ detail, (generate_response gwRegistryDown 300 100 gwReq gwState0 0 1).1 =
      .httpError 500 detail) ∧
    (∀ (req' : GenerateRequest) (st' : GatewayState) (t0' t1' : ℚ),
      (generate_response gwRegistryDown 300 100 req' st' t0' t1').2.cache ≠ st'.cache →
      ∃ (a : Adapter) (data : ResponseData),
        gwRegistryDown req'.model = some a ∧
        a.generate req'.messages req'.temperature req'.max_tokens = .ok data ∧
        (generate_response gwRegistryDown 300 100 req' st' t0' t1').2.cache =
          cacheSet 100 st'.cache (reqKey req') data t1') :=
  adapter_failure_never_cached gwRegistryDown 300 100 gwReq gwState0 0 1
    gwAdapterDown "OpenAI error: rate limited" rfl rfl rfl

/-- C10: on a cache hit the response's `latency_ms` is measured for the
current request (`t0`/`t1` are this call's clock readings) and
`estimated_cost_usd` is recomputed by the currently registered adapter
from the cached usage counts, while `content`, `usage`, `finish_reason`
and `model` come from the cache entry — which, holding only those four
fields (`ResponseData`), could not have supplied a latency or cost. The
cache and registry collaborators are modelled from the spec (`cache.py`,
`registry.py` are not under `src/`). -/
theorem cache_hit_recomputes_latency_and_cost
    (registry : String → Option Adapter) (ttl : ℚ) (maxSize : Nat)
    (req : GenerateRequest) (st : GatewayState) (t0 t1 : ℚ)
    (data : ResponseData) (adapter : Adapter)
    (hhit : cacheGet ttl st.cache (reqKey req) t0 = some data)
    (hreg : registry req.model = some adapter) :
    (generate_response registry ttl maxSize req st t0 t1).1 =
      .ok ⟨data.content, data.model, data.usage, data.finish_reason, true,
        roundTo 2 ((t1 - t0) * 1000),
        roundTo 6 (adapter.estimate_cost data.usage.input_tokens data.usage.output_tokens)⟩ := by
  rw [generate_response_hit registry ttl maxSize req st t0 t1 data hhit,
    finishResponse_of_reg registry req st st.cache data true t0 t1 adapter hreg]

/-- Witness for C10: a pre-populated cache queried at `t0 = 1, t1 = 2`. -/
theorem cache_hit_recomputes_latency_and_cost_witness :
    (generate_response gwRegistry 300 100 gwReq c10State 1 2).1 =
      .ok ⟨gwData.content, gwData.model, gwData.usage, gwData.finish_reason, true,
        roundTo 2 ((2 - 1) * 1000),
        roundTo 6 (gwAdapter.estimate_cost gwData.usage.input_tokens
          gwData.usage.output_tokens)⟩ :=
  cache_hit_recomputes_latency_and_cost gwRegistry 300 100 gwReq c10State 1 2 gwData
    gwAdapter
    (by
      show cacheGet 300 (cacheSet 1 [] (reqKey gwReq) gwData 0) (reqKey gwReq) 1 =
        some gwData
      exact cacheGet_cacheSet_same 300 1 [] (reqKey gwReq) gwData 0 1 (by decide)
        (by norm_num))
    rfl

end Gateway

namespace Toolbox

/-- Counterexample to C8 as stated: `divide` with `b = 0` — an execution
failure of a known tool — answers 404 (the endpoint's `except ValueError`
handler catches the tool's own `ValueError`), not the claimed 500; and
invalid arguments (`b` missing) answer 500 (the `TypeError` of the
keyword binding falls to the generic handler), not the claimed 400. -/
theorem claim_toolbox_statuses_counterexample :
    call_tool_endpoint "divide" [("a", .num 1), ("b", .num 0)] =
      .httpError 404 "Cannot divide by zero" ∧
    call_tool_endpoint "divide" [("a", .num 1)] =
      .httpError 500 "Tool execution failed: missing a required argument" := by
  constructor <;> decide

/-- C8 (amended): the tool-call endpoint returns the
`{content:[{type:"text",text}]}` body exactly on successful execution;
404 when the name is unknown, but also whenever the tool itself raises
`ValueError` (divide-by-zero included); 500 for every other execution
failure, invalid arguments included; and status 400 is never produced. -/
theorem toolbox_status_mapping (name : String) (args : JArgs) :
    (TOOL_REGISTRY.contains name = false →
      call_tool_endpoint name args = .httpError 404 (unknownToolMsg name)) ∧
    (∀ v, TOOL_REGISTRY.contains name = true → execTool name args = .ok v →
      call_tool_endpoint name args = .ok [⟨"text", pyStr v⟩]) ∧
    (∀ m, TOOL_REGISTRY.contains name = true → execTool name args = .valueError m →
      call_tool_endpoint name args = .httpError 404 m) ∧
    (∀ m, TOOL_REGISTRY.contains name = true → execTool name args = .typeError m →
      call_tool_endpoint name args = .httpError 500 ("Tool execution failed: " ++ m)) ∧
    (∀ status detail, call_tool_endpoint name args = .httpError status detail →
      status = 404 ∨ status = 500) := by
  refine ⟨?_, ?_, ?_, ?_, ?_⟩
  · intro habs
    unfold call_tool_endpoint runToolCall
    rw [habs]
    rfl
  · intro v hmem hexec
    unfold call_tool_endpoint runToolCall
    rw [hmem, if_pos rfl, hexec]
  · intro m hmem hexec
    unfold call_tool_endpoint runToolCall
    rw [hmem, if_pos rfl, hexec]
  · intro m hmem hexec
    unfold call_tool_endpoint runToolCall
    rw [hmem, if_pos rfl, hexec]
  · intro status detail h
    unfold call_tool_endpoint runToolCall at h
    by_cases hmem : TOOL_REGISTRY.contains name = true
    · rw [hmem, if_pos rfl] at h
      cases hexec : execTool name args with
      | ok v => rw [hexec] at h; cases h
      | valueError m => rw [hexec] at h; injection h with h1 h2; exact Or.inl h1.symm
      | typeError m => rw [hexec] at h; injection h with h1 h2; exact Or.inr h1.symm
    · rw [Bool.not_eq_true] at hmem
      rw [hmem] at h
      simp only [Bool.false_eq_true, if_false] at h
      injection h with h1 h2
      exact Or.inl h1.symm

/-- Witness for the amended C8: a successful `uppercase` call, an
unknown tool, divide-by-zero, and a missing argument. -/
theorem toolbox_status_mapping_witness :
    call_tool_endpoint "uppercase" [("text", .str "abc")] = .ok [⟨"text", "ABC"⟩] ∧
    call_tool_endpoint "ghost" [] = .httpError 404 (unknownToolMsg "ghost") ∧
    call_tool_endpoint "divide" [("a", .num 1), ("b", .num 0)] =
      .httpError 404 "Cannot divide by zero" ∧
    call_tool_endpoint "divide" [("a", .num 1)] =
      .httpError 500 ("Tool execution failed: " ++ "missing a required argument") :=
  ⟨(toolbox_status_mapping "uppercase" [("text", .str "abc")]).2.1
      (.str "ABC") (by decide) (by decide),
    (toolbox_status_mapping "ghost" []).1 (by decide),
    (toolbox_status_mapping "divide" [("a", .num 1), ("b", .num 0)]).2.2.1
      "Cannot divide by zero" (by decide) (by decide),
    (toolbox_status_mapping "divide" [("a", .num 1)]).2.2.2.1
      "missing a required argument" (by decide) (by decide)⟩

end Toolbox
